import Mathlib

/-!
Verification of the batch signal pipeline in `run.py`.

The pipeline reads a YAML config and a CSV price table, computes a trailing
rolling mean of the `close` column, derives binary signals by a strict
greater-than comparison, aggregates a signal-rate metric, and always writes
exactly one JSON document (success or error).

Shallow embedding conventions:
- pandas float64 series cells are modelled by `PdVal` (`num q` or `nan`);
  numeric values are exact rationals.
- Python exceptions become `Except String`; the message is the `str(e)` text
  embedded in the error artifact.
- The top-level `main` becomes `mainRun`, a pure function of an environment
  describing the config file, input file, clock and write outcomes; it returns
  the trace of externally visible events and the process outcome.
-/

/-- A cell of a pandas float series: a number or NaN. -/
inductive PdVal where
  | num (q : ℚ)
  | nan
deriving DecidableEq, Repr

/-- The trailing window of `close` ending at row `i`:
`close[i+1-window : i+1]` (Python slice semantics via take/drop). -/
def trailingSlice (close : List ℚ) (window i : ℕ) : List ℚ :=
  (close.take (i + 1)).drop (i + 1 - window)

/-- `df['close'].rolling(window=window).mean()` from `compute_rolling_mean`
(run.py line 98): with pandas' default `min_periods = window`, row `i` is NaN
while fewer than `window` observations exist (`i + 1 < window`), and otherwise
the arithmetic mean of the trailing `window` close values.
`window ≥ 1` is guaranteed upstream by config validation (pandas raises on 0). -/
def compute_rolling_mean (close : List ℚ) (window : ℕ) : List PdVal :=
  (List.range close.length).map (fun i =>
    if i + 1 < window then PdVal.nan
    else PdVal.num ((trailingSlice close window i).sum / (window : ℚ)))

/-- pandas elementwise `>` between a float value and a possibly-NaN cell:
any comparison against NaN is `False`. -/
def pandasGt (c : ℚ) (m : PdVal) : Bool :=
  match m with
  | .num v => decide (v < c)
  | .nan => false

/-- `.astype(int)` on a boolean series, kept as a pandas numeric series. -/
def boolToPd (b : Bool) : PdVal :=
  .num (if b then 1 else 0)

/-- `Series.fillna(x)`: replace NaN cells by `x`, keep numbers. -/
def fillna (x : ℚ) (s : List PdVal) : List PdVal :=
  s.map (fun v =>
    match v with
    | .nan => .num x
    | .num q => .num q)

/-- The final `.astype(int)` cast of a numeric cell: C-style truncation toward
zero. After `fillna` no NaN cell remains (pandas would raise on one); the `nan`
branch is unreachable in the pipeline and mirrors `fillna 0`. -/
def pdToInt (v : PdVal) : ℤ :=
  match v with
  | .num q => q.num.tdiv (q.den : ℤ)
  | .nan => 0

/-- `generate_signals` (run.py lines 103-107):
`signals = (df['close'] > rolling_mean).astype(int)` then
`signals = signals.fillna(0).astype(int)`. -/
def generate_signals (close : List ℚ) (rm : List PdVal) : List ℤ :=
  let signals := (List.zipWith pandasGt close rm).map boolToPd
  (fillna 0 signals).map pdToInt

/-- The comparison cast directly to integers, with no `fillna` step; the
refinement candidate the redundancy claim compares `generate_signals` to. -/
def signalsNoFill (close : List ℚ) (rm : List PdVal) : List ℤ :=
  (List.zipWith pandasGt close rm).map (fun b => if b then 1 else 0)

/-- The per-row value of `generate_signals`: 1 when the statistic is a number
strictly below close, 0 otherwise (including the NaN rows). -/
def sigOf (c : ℚ) (v : PdVal) : ℤ :=
  match v with
  | .num m => if m < c then 1 else 0
  | .nan => 0

/-- Python `round` to the nearest integer, ties to even (the mode CPython's
`round` applies to the value being rounded). -/
def roundHalfEven (q : ℚ) : ℤ :=
  if q - ⌊q⌋ < 1 / 2 then ⌊q⌋
  else if 1 / 2 < q - ⌊q⌋ then ⌊q⌋ + 1
  else if Even ⌊q⌋ then ⌊q⌋ else ⌊q⌋ + 1

/-- Python `round(x, 4)`: round half-to-even at the fourth decimal. -/
def pyRound4 (q : ℚ) : ℚ :=
  (roundHalfEven (q * 10000) : ℚ) / 10000

/-- `signals.mean()`: arithmetic mean of the series (exact rationals). -/
def seriesMean (signals : List ℤ) : ℚ :=
  (signals.sum : ℚ) / (signals.length : ℚ)

/-- The validated run configuration (`RunConfig` of the spec); `seed` and
`window` hold the Python integer values (booleans count 1/0, see `pyIntValue`). -/
structure RunConfig where
  seed : ℤ
  window : ℤ
  version : String
deriving DecidableEq, Repr

/-- The success artifact (`MetricsRecord`). -/
structure MetricsRecord where
  version : String
  rows_processed : ℕ
  metric : String
  value : ℚ
  latency_ms : ℕ
  seed : ℤ
  status : String
deriving DecidableEq, Repr

/-- `calculate_metrics` (run.py lines 110-124): signal rate rounded to 4
decimals plus run metadata. -/
def calculate_metrics (signals : List ℤ) (total_rows : ℕ) (config : RunConfig)
    (latency_ms : ℕ) : MetricsRecord :=
  { version := config.version
    rows_processed := total_rows
    metric := "signal_rate"
    value := pyRound4 (seriesMean signals)
    latency_ms := latency_ms
    seed := config.seed
    status := "success" }

/-- A scalar of the parsed YAML config document, as Python sees it. -/
inductive YVal where
  | int (n : ℤ)
  | bool (b : Bool)
  | str (s : String)
  | float (q : ℚ)
  | null
deriving DecidableEq, Repr

/-- Python `isinstance(v, int)`: true for ints AND booleans (`bool` is a
subclass of `int`). -/
def pyIsInt : YVal → Bool
  | .int _ => true
  | .bool _ => true
  | _ => false

/-- Python `isinstance(v, str)`. -/
def pyIsStr : YVal → Bool
  | .str _ => true
  | _ => false

/-- A "plain integer" in the YAML sense: the `int` constructor only. -/
def yvalIsPlainInt : YVal → Bool
  | .int _ => true
  | _ => false

/-- The integer value of a Python int-like scalar (`True = 1`, `False = 0`). -/
def pyIntValue : YVal → ℤ
  | .int n => n
  | .bool b => if b then 1 else 0
  | _ => 0

def pyStrValue : YVal → String
  | .str s => s
  | _ => ""

/-- The state of the config file as `load_config` observes it: absent, parsed
to something that is falsy or not a dict (`None`, scalar, list), or a mapping. -/
inductive ConfigSource where
  | missingFile
  | notDict
  | dict (entries : List (String × YVal))
deriving DecidableEq, Repr

/-- `load_config` (run.py lines 48-73): existence check, parse-shape check,
required keys in order `seed`, `window`, `version`, then the type checks. The
returned error string is Python's `str(e)` for the raised exception. -/
def load_config : ConfigSource → Except String RunConfig
  | .missingFile => .error "Configuration file not found"
  | .notDict => .error "Invalid config file: empty or malformed"
  | .dict entries =>
    if entries.isEmpty then .error "Invalid config file: empty or malformed"
    else
      match entries.lookup "seed" with
      | none => .error "Missing required config key: seed"
      | some vSeed =>
        match entries.lookup "window" with
        | none => .error "Missing required config key: window"
        | some vWindow =>
          match entries.lookup "version" with
          | none => .error "Missing required config key: version"
          | some vVersion =>
            if ¬ pyIsInt vSeed then .error "seed must be an integer"
            else if ¬ pyIsInt vWindow ∨ pyIntValue vWindow < 1 then
              .error "window must be a positive integer"
            else if ¬ pyIsStr vVersion then .error "version must be a string"
            else .ok ⟨pyIntValue vSeed, pyIntValue vWindow, pyStrValue vVersion⟩

/-- The state of the input file as `load_data` observes it. -/
inductive InputSource where
  | missingFile
  | emptyFile
  | badCsv
  | table (cols : List (String × List ℚ))
deriving DecidableEq, Repr

/-- `load_data` (run.py lines 76-94): existence, parse, non-emptiness and
`close`-column checks; yields the `close` column (the only one the pipeline
reads; its length is the row count `len(df)`). -/
def load_data : InputSource → Except String (List ℚ)
  | .missingFile => .error "Input file not found"
  | .emptyFile => .error "Input CSV file is empty"
  | .badCsv => .error "Invalid CSV format"
  | .table cols =>
    let nrows := (cols.map (fun c => c.2.length)).foldr max 0
    if nrows = 0 then .error "CSV file contains no data rows"
    else
      match cols.lookup "close" with
      | none => .error "Missing required column: close"
      | some close => .ok close

/-- `np.random.seed(seed)` (run.py line 144): raises `ValueError` unless the
seed is in `[0, 2^32)`. -/
def np_random_seed (seed : ℤ) : Except String Unit :=
  if 0 ≤ seed ∧ seed < 2 ^ 32 then .ok () else
    .error "Seed must be between 0 and 2**32 - 1"

/-- The error artifact (`ErrorRecord`). -/
structure ErrorRecord where
  version : String
  status : String
  error_message : String
deriving DecidableEq, Repr

/-- The single JSON document a run writes to the output path. -/
inductive OutputDoc where
  | success (m : MetricsRecord)
  | failure (e : ErrorRecord)
deriving DecidableEq, Repr

/-- Externally visible events of one run, in order. -/
inductive Event where
  | configLoaded
  | seedSet
  | dataLoaded
  | wrote (d : OutputDoc)
deriving DecidableEq, Repr

/-- How the process ends: `sys.exit(main())` with a return code, or an
uncaught exception escaping `main`. -/
inductive Outcome where
  | exited (code : ℕ)
  | crashed
deriving DecidableEq, Repr

/-- The environment of one invocation: file contents, the elapsed-time clock
reading, and whether each `write_output` call would succeed (plus the message
of the I/O error raised when the success-path write fails). -/
structure RunEnv where
  configSrc : ConfigSource
  inputSrc : InputSource
  elapsedMs : ℕ
  successWriteOk : Bool
  errorWriteOk : Bool
  writeErrMsg : String
deriving DecidableEq, Repr

structure RunResult where
  trace : List Event
  outcome : Outcome
deriving DecidableEq, Repr

/-- The `except` block of `main` (run.py lines 162-173): build the error
artifact from the current `version` and `str(e)` and write it. This
`write_output` call is outside any handler: if it fails, the exception
escapes `main` uncaught. -/
def failPath (env : RunEnv) (version msg : String) (evs : List Event) : RunResult :=
  let doc := OutputDoc.failure ⟨version, "error", msg⟩
  if env.errorWriteOk then ⟨evs ++ [.wrote doc], .exited 1⟩
  else ⟨evs, .crashed⟩

/-- `main` (run.py lines 132-173): the try block runs config load, seeding,
data load, rolling mean, signals, metrics and the success write in order; any
exception from any of these lands in the single except block (`failPath`). -/
def mainRun (env : RunEnv) : RunResult :=
  match load_config env.configSrc with
  | .error e => failPath env "v1" e []
  | .ok config =>
    match np_random_seed config.seed with
    | .error e => failPath env config.version e [.configLoaded]
    | .ok _ =>
      match load_data env.inputSrc with
      | .error e => failPath env config.version e [.configLoaded, .seedSet]
      | .ok close =>
        let rm := compute_rolling_mean close config.window.toNat
        let signals := generate_signals close rm
        let metrics := calculate_metrics signals close.length config env.elapsedMs
        if env.successWriteOk then
          ⟨[.configLoaded, .seedSet, .dataLoaded, .wrote (.success metrics)], .exited 0⟩
        else failPath env config.version env.writeErrMsg
          [.configLoaded, .seedSet, .dataLoaded]

/-- The documents written to the output path during a run, in order. -/
def writtenDocs (r : RunResult) : List OutputDoc :=
  r.trace.filterMap (fun e =>
    match e with
    | .wrote d => some d
    | _ => none)

/-- Matches the success schema
`{version, rows_processed, metric, value, latency_ms, seed, status:"success"}`. -/
def isSuccessDoc : OutputDoc → Bool
  | .success m => m.status = "success" && m.metric = "signal_rate"
  | .failure _ => false

/-- Matches the failure schema `{version, status:"error", error_message}`. -/
def isFailureDoc : OutputDoc → Bool
  | .success _ => false
  | .failure e => e.status = "error"

/-- A config mapping the spec declares invalid, with Python's reading of
"integer" (`isinstance(·, int)`, so booleans included). -/
def configDocViolation (entries : List (String × YVal)) : Prop :=
  entries.lookup "seed" = none
  ∨ entries.lookup "window" = none
  ∨ entries.lookup "version" = none
  ∨ (∃ v, entries.lookup "seed" = some v ∧ pyIsInt v = false)
  ∨ (∃ v, entries.lookup "window" = some v ∧ (pyIsInt v = false ∨ pyIntValue v < 1))
  ∨ (∃ v, entries.lookup "version" = some v ∧ pyIsStr v = false)

/-- Two output documents that agree on everything except possibly
`latency_ms`. -/
def docEquivExceptLatency : OutputDoc → OutputDoc → Prop
  | .success a, .success b =>
      a.version = b.version ∧ a.rows_processed = b.rows_processed
      ∧ a.metric = b.metric ∧ a.value = b.value
      ∧ a.seed = b.seed ∧ a.status = b.status
  | .failure a, .failure b => a = b
  | _, _ => False

/-- A well-formed config document: seed 42, window 3, version "v1". -/
def cfgGood : ConfigSource :=
  .dict [("seed", .int 42), ("window", .int 3), ("version", .str "v1")]

/-- A config document whose `seed` is the boolean `true`. -/
def cfgBoolSeed : ConfigSource :=
  .dict [("seed", .bool true), ("window", .int 3), ("version", .str "v1")]

/-- A config document whose `window` is the boolean `true`. -/
def cfgBoolWindow : ConfigSource :=
  .dict [("seed", .int 7), ("window", .bool true), ("version", .str "v1")]

/-- A config document missing the `window` key. -/
def cfgMissingWindow : List (String × YVal) :=
  [("seed", .int 1), ("version", .str "v1")]

/-- An input table with a `close` column of five rows. -/
def inputGood : InputSource := .table [("close", [1, 2, 3, 4, 5])]

/-- A fully healthy environment. -/
def envGood : RunEnv := ⟨cfgGood, inputGood, 7, true, true, "disk full"⟩

/-- The same files as `envGood` but a different clock reading. -/
def envGood2 : RunEnv := ⟨cfgGood, inputGood, 23, true, true, "disk full"⟩

/-- Healthy files, but the success-path `write_output` raises. -/
def envWriteFail : RunEnv := ⟨cfgGood, inputGood, 7, false, true, "disk full"⟩

/-- Environment whose config document misses `window`. -/
def envMissingWindow : RunEnv :=
  ⟨.dict cfgMissingWindow, inputGood, 7, true, true, "disk full"⟩

lemma trailingSlice_length (close : List ℚ) (window i : ℕ)
    (hiw : window ≤ i + 1) (hi : i < close.length) :
    (trailingSlice close window i).length = window := by
  simp only [trailingSlice, List.length_drop, List.length_take]
  omega

lemma trailingSlice_getElem? (close : List ℚ) (window i j : ℕ)
    (hiw : window ≤ i + 1) (_hi : i < close.length) (hj : j < window) :
    (trailingSlice close window i)[j]? = close[i + 1 - window + j]? := by
  have h1 : (trailingSlice close window i)[j]? =
      (close.take (i + 1))[i + 1 - window + j]? := by
    simp [trailingSlice, List.getElem?_drop]
  rw [h1, List.getElem?_take]
  have hlt : i + 1 - window + j < i + 1 := by omega
  simp [hlt]

/-- The trailing slice is exactly the list of close values at indices
`i+1-window+j` for `j < window`. -/
lemma trailingSlice_eq_map (close : List ℚ) (window i : ℕ)
    (hiw : window ≤ i + 1) (hi : i < close.length) :
    trailingSlice close window i =
      (List.range window).map (fun j => close.getD (i + 1 - window + j) 0) := by
  apply List.ext_getElem?
  intro j
  by_cases hj : j < window
  · rw [trailingSlice_getElem? close window i j hiw hi hj]
    have hidx : i + 1 - window + j < close.length := by omega
    rw [List.getElem?_eq_getElem hidx]
    have hjr : j < (List.range window).length := by simpa using hj
    rw [List.getElem?_eq_getElem (by simpa using hj)]
    simp [List.getD, hidx]
  · have h1 : (trailingSlice close window i).length ≤ j := by
      rw [trailingSlice_length close window i hiw hi]; omega
    have h2 : ((List.range window).map
        (fun j => close.getD (i + 1 - window + j) 0)).length ≤ j := by
      simpa using (by omega : window ≤ j)
    rw [List.getElem?_eq_none h1, List.getElem?_eq_none h2]

lemma compute_rolling_mean_length (close : List ℚ) (window : ℕ) :
    (compute_rolling_mean close window).length = close.length := by
  simp [compute_rolling_mean]

lemma compute_rolling_mean_getElem?_lt (close : List ℚ) (window i : ℕ)
    (hi : i < close.length) (hiw : i + 1 < window) :
    (compute_rolling_mean close window)[i]? = some PdVal.nan := by
  simp [compute_rolling_mean, List.getElem?_map, List.getElem?_range, hi, hiw]

lemma compute_rolling_mean_getElem?_ge (close : List ℚ) (window i : ℕ)
    (hi : i < close.length) (hiw : window ≤ i + 1) :
    (compute_rolling_mean close window)[i]? =
      some (PdVal.num ((trailingSlice close window i).sum / (window : ℚ))) := by
  have hnot : ¬ i + 1 < window := by omega
  simp [compute_rolling_mean, List.getElem?_map, List.getElem?_range, hi, hnot]

lemma pdToInt_boolToPd (b : Bool) : pdToInt (boolToPd b) = if b then 1 else 0 := by
  cases b <;> decide

lemma fillna_map_boolToPd (l : List Bool) :
    (fillna 0 (l.map boolToPd)).map pdToInt = l.map (fun b => if b then 1 else 0) := by
  induction l with
  | nil => rfl
  | cons b l ih =>
      simp only [List.map_cons, fillna, boolToPd] at ih ⊢
      rw [show pdToInt (PdVal.num (if b then 1 else 0)) = if b then 1 else 0 from
        pdToInt_boolToPd b]
      exact congrArg _ ih

lemma generate_signals_eq_noFill (close : List ℚ) (rm : List PdVal) :
    generate_signals close rm = signalsNoFill close rm := by
  unfold generate_signals signalsNoFill
  exact fillna_map_boolToPd (List.zipWith pandasGt close rm)

lemma generate_signals_length (close : List ℚ) (rm : List PdVal) :
    (generate_signals close rm).length = min close.length rm.length := by
  rw [generate_signals_eq_noFill]
  simp [signalsNoFill]

lemma generate_signals_getElem? (close : List ℚ) (rm : List PdVal) (i : ℕ)
    (c : ℚ) (v : PdVal) (hc : close[i]? = some c) (hv : rm[i]? = some v) :
    (generate_signals close rm)[i]? = some (sigOf c v) := by
  obtain ⟨hcl, hce⟩ := List.getElem?_eq_some.mp hc
  obtain ⟨hrl, hre⟩ := List.getElem?_eq_some.mp hv
  rw [generate_signals_eq_noFill]
  have hlen : i < (signalsNoFill close rm).length := by
    simp [signalsNoFill]; omega
  rw [List.getElem?_eq_getElem hlen]
  congr 1
  simp only [signalsNoFill, List.getElem_map, List.getElem_zipWith]
  rw [hce, hre]
  cases v with
  | num m => simp [pandasGt, sigOf]
  | nan => simp [pandasGt, sigOf]

lemma roundHalfEven_intCast (n : ℤ) : roundHalfEven (n : ℚ) = n := by
  unfold roundHalfEven
  norm_num

lemma roundHalfEven_nonneg (q : ℚ) (h : 0 ≤ q) : 0 ≤ roundHalfEven q := by
  have hf : (0 : ℤ) ≤ ⌊q⌋ := Int.floor_nonneg.mpr h
  unfold roundHalfEven
  split_ifs <;> omega

lemma roundHalfEven_le (q : ℚ) (N : ℤ) (h : q ≤ N) : roundHalfEven q ≤ N := by
  have hfl : ⌊q⌋ ≤ N := by
    calc ⌊q⌋ ≤ ⌊(N : ℚ)⌋ := Int.floor_le_floor h
    _ = N := Int.floor_intCast N
  have hfle : (⌊q⌋ : ℚ) ≤ q := Int.floor_le q
  unfold roundHalfEven
  split_ifs with h1 h2 h3
  · exact hfl
  · have hlt : (⌊q⌋ : ℚ) < N := by linarith
    have : ⌊q⌋ < N := by exact_mod_cast hlt
    omega
  · exact hfl
  · have hhalf : 1 / 2 ≤ q - ⌊q⌋ := by linarith
    have hlt : (⌊q⌋ : ℚ) < N := by linarith
    have : ⌊q⌋ < N := by exact_mod_cast hlt
    omega

lemma pyRound4_bounds (q : ℚ) (h0 : 0 ≤ q) (h1 : q ≤ 1) :
    0 ≤ pyRound4 q ∧ pyRound4 q ≤ 1 := by
  have ha : 0 ≤ q * 10000 := by positivity
  have hb : q * 10000 ≤ ((10000 : ℤ) : ℚ) := by push_cast; nlinarith
  have hR0 : 0 ≤ roundHalfEven (q * 10000) := roundHalfEven_nonneg _ ha
  have hR1 : roundHalfEven (q * 10000) ≤ 10000 := roundHalfEven_le _ _ hb
  unfold pyRound4
  constructor
  · positivity
  · rw [div_le_one (by norm_num)]
    exact_mod_cast hR1

lemma pyRound4_three_fifths : pyRound4 (3 / 5) = 3 / 5 := by
  have h : (3 / 5 : ℚ) * 10000 = ((6000 : ℤ) : ℚ) := by norm_num
  rw [pyRound4, h, roundHalfEven_intCast]
  norm_num

lemma load_config_ok_inv (entries : List (String × YVal)) (cfg : RunConfig)
    (h : load_config (.dict entries) = .ok cfg) :
    ∃ vS vW vV, entries.lookup "seed" = some vS
      ∧ entries.lookup "window" = some vW
      ∧ entries.lookup "version" = some vV
      ∧ pyIsInt vS = true ∧ pyIsInt vW = true
      ∧ 1 ≤ pyIntValue vW ∧ pyIsStr vV = true := by
  simp only [load_config] at h
  split at h
  · simp at h
  · split at h
    · simp at h
    · rename_i vS hS
      split at h
      · simp at h
      · rename_i vW hW
        split at h
        · simp at h
        · rename_i vV hV
          split at h
          · simp at h
          · rename_i hS2
            split at h
            · simp at h
            · rename_i hW2
              split at h
              · simp at h
              · rename_i hV2
                push_neg at hS2 hW2 hV2
                refine ⟨vS, vW, vV, hS, hW, hV, ?_, ?_, ?_, ?_⟩
                · simpa using hS2
                · simpa using hW2.1
                · omega
                · simpa using hV2

/-- C2: for every price table and window ≥ 1, the rolling statistic at a row
`i` in range is absent (NaN, no sentinel number) when `i < window − 1`, and
otherwise equals the arithmetic mean of the close values at indices
`i − window + 1 .. i` inclusive. -/
theorem C2_rolling_mean (close : List ℚ) (window i : ℕ)
    (hw : 1 ≤ window) (hi : i < close.length) :
    (i + 1 < window → (compute_rolling_mean close window)[i]? = some PdVal.nan)
    ∧ (window ≤ i + 1 →
        (compute_rolling_mean close window)[i]? =
          some (PdVal.num
            (((List.range window).map
                (fun j => close.getD (i + 1 - window + j) 0)).sum / (window : ℚ)))) := by
  constructor
  · intro hiw
    exact compute_rolling_mean_getElem?_lt close window i hi hiw
  · intro hiw
    rw [compute_rolling_mean_getElem?_ge close window i hi hiw,
      trailingSlice_eq_map close window i hiw hi]

/-- C2 witness at `close = [1,2,3]`, `window = 3`, `i = 2`: the statistic is
the mean 2 of rows 0..2; at `i = 1` it is NaN. -/
theorem C2_rolling_mean_witness :
    (1 ≤ 3 ∧ 2 < ([1, 2, 3] : List ℚ).length ∧ 1 < ([1, 2, 3] : List ℚ).length)
    ∧ ((2 + 1 < 3 → (compute_rolling_mean [1, 2, 3] 3)[2]? = some PdVal.nan)
      ∧ (3 ≤ 2 + 1 →
          (compute_rolling_mean [1, 2, 3] 3)[2]? =
            some (PdVal.num
              (((List.range 3).map
                  (fun j => ([1, 2, 3] : List ℚ).getD (2 + 1 - 3 + j) 0)).sum / (3 : ℚ)))))
    ∧ ((1 + 1 < 3 → (compute_rolling_mean [1, 2, 3] 3)[1]? = some PdVal.nan)
      ∧ (3 ≤ 1 + 1 →
          (compute_rolling_mean [1, 2, 3] 3)[1]? =
            some (PdVal.num
              (((List.range 3).map
                  (fun j => ([1, 2, 3] : List ℚ).getD (1 + 1 - 3 + j) 0)).sum / (3 : ℚ))))) :=
  ⟨⟨by decide, by decide, by decide⟩,
    C2_rolling_mean [1, 2, 3] 3 2 (by decide) (by decide),
    C2_rolling_mean [1, 2, 3] 3 1 (by decide) (by decide)⟩

/-- C3: the generated signal at a row is 1 exactly when the statistic is
present there and close is strictly greater than it, and 0 in every other
case (absent statistic, or close ≤ statistic). -/
theorem C3_signal_rule (close : List ℚ) (rm : List PdVal) (i : ℕ) (c : ℚ) (v : PdVal)
    (hc : close[i]? = some c) (hv : rm[i]? = some v) :
    (generate_signals close rm)[i]? =
      some (match v with
        | PdVal.num m => if c > m then (1 : ℤ) else 0
        | PdVal.nan => 0) := by
  rw [generate_signals_getElem? close rm i c v hc hv]
  cases v with
  | num m => simp [sigOf, gt_iff_lt]
  | nan => simp [sigOf]

/-- C3 witness at `close = [5, 1]`, statistics `[4, NaN]`: row 0 compares
5 > 4 giving 1; row 1 has an absent statistic giving 0. -/
theorem C3_signal_rule_witness :
    (([5, 1] : List ℚ)[0]? = some 5 ∧ [PdVal.num 4, PdVal.nan][0]? = some (PdVal.num 4)
      ∧ ([5, 1] : List ℚ)[1]? = some 1 ∧ [PdVal.num 4, PdVal.nan][1]? = some PdVal.nan)
    ∧ (generate_signals [5, 1] [PdVal.num 4, PdVal.nan])[0]? =
        some (if (5 : ℚ) > 4 then (1 : ℤ) else 0)
    ∧ (generate_signals [5, 1] [PdVal.num 4, PdVal.nan])[1]? = some 0 :=
  ⟨⟨by decide, by decide, by decide, by decide⟩,
    C3_signal_rule [5, 1] [PdVal.num 4, PdVal.nan] 0 5 (PdVal.num 4) (by decide) (by decide),
    C3_signal_rule [5, 1] [PdVal.num 4, PdVal.nan] 1 1 PdVal.nan (by decide) (by decide)⟩

/-- C4: the signal series has the same length as the table and the window
series, and every row with `i < window − 1` carries signal 0. -/
theorem C4_alignment (close : List ℚ) (window : ℕ) (hw : 1 ≤ window) :
    (compute_rolling_mean close window).length = close.length
    ∧ (generate_signals close (compute_rolling_mean close window)).length = close.length
    ∧ ∀ i, i + 1 < window → i < close.length →
        (generate_signals close (compute_rolling_mean close window))[i]? = some 0 := by
  refine ⟨compute_rolling_mean_length close window, ?_, ?_⟩
  · rw [generate_signals_length, compute_rolling_mean_length]
    exact min_self _
  · intro i hiw hi
    have hrm := compute_rolling_mean_getElem?_lt close window i hi hiw
    have hc : close[i]? = some (close.get ⟨i, hi⟩) := by
      rw [List.getElem?_eq_getElem hi]
      rfl
    rw [generate_signals_getElem? close (compute_rolling_mean close window) i _ _ hc hrm]
    rfl

/-- C4 witness at `close = [1,2,3]`, `window = 3`: lengths 3 and zero signals
at rows 0 and 1. -/
theorem C4_alignment_witness :
    (1 ≤ 3)
    ∧ (compute_rolling_mean [1, 2, 3] 3).length = ([1, 2, 3] : List ℚ).length
    ∧ (generate_signals [1, 2, 3] (compute_rolling_mean [1, 2, 3] 3)).length
        = ([1, 2, 3] : List ℚ).length
    ∧ ∀ i, i + 1 < 3 → i < ([1, 2, 3] : List ℚ).length →
        (generate_signals [1, 2, 3] (compute_rolling_mean [1, 2, 3] 3))[i]? = some 0 :=
  ⟨by decide, C4_alignment [1, 2, 3] 3 (by decide)⟩

/-- C10: the `fillna(0)` step of `generate_signals` is redundant — the strict
comparison already yields `False` (hence 0) on absent-statistic rows, so the
function equals the variant that casts the comparison directly to integers. -/
theorem C10_fillna_redundant (close : List ℚ) (rm : List PdVal) :
    generate_signals close rm = signalsNoFill close rm :=
  generate_signals_eq_noFill close rm

/-- C5: for non-empty signal series, the metric `value` is the arithmetic
mean of the signals rounded to 4 decimals half-to-even, lies in `[0, 1]` for
0/1 signals, and signals `[0,0,1,1,1]` yield value `0.6`. (Determinism is
immediate: `calculate_metrics` is a function of its arguments.) -/
theorem C5_metric_value (signals : List ℤ) (rows : ℕ) (config : RunConfig) (lat : ℕ)
    (hne : signals ≠ []) (h01 : ∀ x ∈ signals, x = 0 ∨ x = 1) :
    (calculate_metrics signals rows config lat).value =
        pyRound4 ((signals.sum : ℚ) / (signals.length : ℚ))
    ∧ 0 ≤ (calculate_metrics signals rows config lat).value
    ∧ (calculate_metrics signals rows config lat).value ≤ 1
    ∧ (calculate_metrics [0, 0, 1, 1, 1] rows config lat).value = 3 / 5 := by
  have hlen : 0 < signals.length := List.length_pos.mpr hne
  have hlenQ : (0 : ℚ) < (signals.length : ℚ) := by exact_mod_cast hlen
  have hsum0 : (0 : ℤ) ≤ signals.sum := by
    apply List.sum_nonneg
    intro x hx
    rcases h01 x hx with h | h <;> simp [h]
  have hsum1 : signals.sum ≤ (signals.length : ℤ) := by
    have := List.sum_le_card_nsmul signals 1 (by
      intro x hx
      rcases h01 x hx with h | h <;> simp [h])
    simpa using this
  have hm0 : 0 ≤ seriesMean signals := by
    apply div_nonneg _ (le_of_lt hlenQ)
    exact_mod_cast hsum0
  have hm1 : seriesMean signals ≤ 1 := by
    rw [seriesMean, div_le_one hlenQ]
    exact_mod_cast hsum1
  obtain ⟨hb0, hb1⟩ := pyRound4_bounds _ hm0 hm1
  refine ⟨rfl, hb0, hb1, ?_⟩
  show pyRound4 (seriesMean [0, 0, 1, 1, 1]) = 3 / 5
  have hmean : seriesMean [0, 0, 1, 1, 1] = 3 / 5 := by
    norm_num [seriesMean]
  rw [hmean, pyRound4_three_fifths]

/-- C5 witness at signals `[0,0,1,1,1]`: the hypotheses hold concretely and
the metric value is `3/5 = 0.6`. -/
theorem C5_metric_value_witness :
    (([0, 0, 1, 1, 1] : List ℤ) ≠ [] ∧ ∀ x ∈ ([0, 0, 1, 1, 1] : List ℤ), x = 0 ∨ x = 1)
    ∧ ((calculate_metrics [0, 0, 1, 1, 1] 5 ⟨42, 3, "v1"⟩ 7).value =
          pyRound4 ((([0, 0, 1, 1, 1] : List ℤ).sum : ℚ)
            / (([0, 0, 1, 1, 1] : List ℤ).length : ℚ))
      ∧ 0 ≤ (calculate_metrics [0, 0, 1, 1, 1] 5 ⟨42, 3, "v1"⟩ 7).value
      ∧ (calculate_metrics [0, 0, 1, 1, 1] 5 ⟨42, 3, "v1"⟩ 7).value ≤ 1
      ∧ (calculate_metrics [0, 0, 1, 1, 1] 5 ⟨42, 3, "v1"⟩ 7).value = 3 / 5) :=
  ⟨⟨by decide, by decide⟩,
    C5_metric_value [0, 0, 1, 1, 1] 5 ⟨42, 3, "v1"⟩ 7 (by decide) (by decide)⟩

/-- C1: when the write operations themselves succeed, every run — success or
failure at config load, seeding, data load, statistic, signals or metrics —
writes exactly one document to the output path, and it matches the success or
the failure schema. -/
theorem C1_single_artifact (env : RunEnv)
    (hsw : env.successWriteOk = true) (hew : env.errorWriteOk = true) :
    ∃ d, writtenDocs (mainRun env) = [d]
      ∧ (isSuccessDoc d = true ∨ isFailureDoc d = true) := by
  cases hc : load_config env.configSrc with
  | error e =>
      exact ⟨.failure ⟨"v1", "error", e⟩,
        by simp [mainRun, hc, failPath, hew, writtenDocs], Or.inr rfl⟩
  | ok config =>
      cases hs : np_random_seed config.seed with
      | error e =>
          exact ⟨.failure ⟨config.version, "error", e⟩,
            by simp [mainRun, hc, hs, failPath, hew, writtenDocs], Or.inr rfl⟩
      | ok u =>
          cases u
          cases hd : load_data env.inputSrc with
          | error e =>
              exact ⟨.failure ⟨config.version, "error", e⟩,
                by simp [mainRun, hc, hs, hd, failPath, hew, writtenDocs], Or.inr rfl⟩
          | ok close =>
              refine ⟨.success (calculate_metrics
                  (generate_signals close (compute_rolling_mean close config.window.toNat))
                  close.length config env.elapsedMs), ?_, Or.inl ?_⟩
              · simp [mainRun, hc, hs, hd, hsw, writtenDocs]
              · simp [isSuccessDoc, calculate_metrics]

/-- C1 witness at the healthy environment. -/
theorem C1_single_artifact_witness :
    (envGood.successWriteOk = true ∧ envGood.errorWriteOk = true)
    ∧ ∃ d, writtenDocs (mainRun envGood) = [d]
        ∧ (isSuccessDoc d = true ∨ isFailureDoc d = true) :=
  ⟨⟨rfl, rfl⟩, C1_single_artifact envGood rfl rfl⟩

/-- C6 (amended): reading "integer" as Python's `isinstance(·, int)` — which
booleans satisfy, see C9 — any document missing `seed`, `window` or `version`,
or with a wrongly typed value, or with `window < 1`, fails validation, and the
run performs no data-load effect. -/
theorem C6_config_strictness (entries : List (String × YVal)) (env : RunEnv)
    (hviol : configDocViolation entries)
    (hsrc : env.configSrc = .dict entries) :
    (∃ msg, load_config (ConfigSource.dict entries) = .error msg)
    ∧ Event.dataLoaded ∉ (mainRun env).trace := by
  have herr : ∃ msg, load_config (.dict entries) = .error msg := by
    cases h : load_config (.dict entries) with
    | error e => exact ⟨e, rfl⟩
    | ok cfg =>
      obtain ⟨vS, vW, vV, hS, hW, hV, hS2, hW2, hW3, hV2⟩ :=
        load_config_ok_inv entries cfg h
      rcases hviol with h1 | h1 | h1 | ⟨v, hv, hvi⟩ | ⟨v, hv, hvi⟩ | ⟨v, hv, hvi⟩
      · rw [h1] at hS; cases hS
      · rw [h1] at hW; cases hW
      · rw [h1] at hV; cases hV
      · rw [hv] at hS
        injection hS with he
        rw [he] at hvi
        rw [hvi] at hS2
        cases hS2
      · rw [hv] at hW
        injection hW with he
        rw [he] at hvi
        rcases hvi with hvi | hvi
        · rw [hvi] at hW2; cases hW2
        · omega
      · rw [hv] at hV
        injection hV with he
        rw [he] at hvi
        rw [hvi] at hV2
        cases hV2
  obtain ⟨msg, hmsg⟩ := herr
  refine ⟨⟨msg, hmsg⟩, ?_⟩
  unfold mainRun
  rw [hsrc, hmsg]
  cases hew : env.errorWriteOk <;> simp [failPath, hew]

/-- C6 witness: a document missing `window` is rejected and triggers no data
load. -/
theorem C6_config_strictness_witness :
    (configDocViolation cfgMissingWindow
      ∧ envMissingWindow.configSrc = .dict cfgMissingWindow)
    ∧ (∃ msg, load_config (ConfigSource.dict cfgMissingWindow) = .error msg)
    ∧ Event.dataLoaded ∉ (mainRun envMissingWindow).trace :=
  ⟨⟨Or.inr (Or.inl (by decide)), rfl⟩,
    C6_config_strictness cfgMissingWindow envMissingWindow
      (Or.inr (Or.inl (by decide))) rfl⟩

/-- C6 counterexample: a document whose `seed` is the boolean `true` — not an
integer of the document's data model — passes validation instead of failing
with a ConfigError, refuting the claim as stated at this concrete input. -/
theorem C6_counterexample :
    yvalIsPlainInt (YVal.bool true) = false
    ∧ load_config cfgBoolSeed = .ok ⟨1, 3, "v1"⟩ := by
  exact ⟨rfl, rfl⟩

/-- C9: validation accepts boolean `seed` values and the boolean `window`
value `true` (Python's `bool` is a subclass of `int`), so some documents whose
seed or window is not a plain integer validate successfully. -/
theorem C9_bool_passes_validation :
    load_config cfgBoolSeed = .ok ⟨1, 3, "v1"⟩
    ∧ load_config cfgBoolWindow = .ok ⟨7, 1, "v1"⟩
    ∧ yvalIsPlainInt (YVal.bool true) = false :=
  ⟨rfl, rfl, rfl⟩

/-- C7: two runs on identical config and input documents (with working
writes) each produce one output document, and the documents agree on every
field except possibly `latency_ms` — `version`, `rows_processed`, `metric`,
`value`, `seed` and `status` coincide. -/
theorem C7_idempotent (env1 env2 : RunEnv)
    (hcfg : env1.configSrc = env2.configSrc)
    (hinp : env1.inputSrc = env2.inputSrc)
    (h1s : env1.successWriteOk = true) (h1e : env1.errorWriteOk = true)
    (h2s : env2.successWriteOk = true) (h2e : env2.errorWriteOk = true) :
    ∃ d1 d2, writtenDocs (mainRun env1) = [d1]
      ∧ writtenDocs (mainRun env2) = [d2]
      ∧ docEquivExceptLatency d1 d2 := by
  cases hc : load_config env2.configSrc with
  | error e =>
      exact ⟨.failure ⟨"v1", "error", e⟩, .failure ⟨"v1", "error", e⟩,
        by simp [mainRun, hcfg, hc, failPath, h1e, writtenDocs],
        by simp [mainRun, hc, failPath, h2e, writtenDocs],
        by simp [docEquivExceptLatency]⟩
  | ok config =>
      cases hs : np_random_seed config.seed with
      | error e =>
          exact ⟨.failure ⟨config.version, "error", e⟩,
            .failure ⟨config.version, "error", e⟩,
            by simp [mainRun, hcfg, hc, hs, failPath, h1e, writtenDocs],
            by simp [mainRun, hc, hs, failPath, h2e, writtenDocs],
            by simp [docEquivExceptLatency]⟩
      | ok u =>
          cases u
          cases hd : load_data env2.inputSrc with
          | error e =>
              exact ⟨.failure ⟨config.version, "error", e⟩,
                .failure ⟨config.version, "error", e⟩,
                by simp [mainRun, hcfg, hinp, hc, hs, hd, failPath, h1e, writtenDocs],
                by simp [mainRun, hc, hs, hd, failPath, h2e, writtenDocs],
                by simp [docEquivExceptLatency]⟩
          | ok close =>
              exact ⟨.success (calculate_metrics
                  (generate_signals close (compute_rolling_mean close config.window.toNat))
                  close.length config env1.elapsedMs),
                .success (calculate_metrics
                  (generate_signals close (compute_rolling_mean close config.window.toNat))
                  close.length config env2.elapsedMs),
                by simp [mainRun, hcfg, hinp, hc, hs, hd, h1s, writtenDocs],
                by simp [mainRun, hc, hs, hd, h2s, writtenDocs],
                by simp [docEquivExceptLatency, calculate_metrics]⟩

/-- C7 witness: the healthy environment run with two clock readings. -/
theorem C7_idempotent_witness :
    (envGood.configSrc = envGood2.configSrc ∧ envGood.inputSrc = envGood2.inputSrc
      ∧ envGood.successWriteOk = true ∧ envGood.errorWriteOk = true
      ∧ envGood2.successWriteOk = true ∧ envGood2.errorWriteOk = true)
    ∧ ∃ d1 d2, writtenDocs (mainRun envGood) = [d1]
        ∧ writtenDocs (mainRun envGood2) = [d2]
        ∧ docEquivExceptLatency d1 d2 :=
  ⟨⟨rfl, rfl, rfl, rfl, rfl, rfl⟩,
    C7_idempotent envGood envGood2 rfl rfl rfl rfl rfl rfl⟩

/-- C8 (amended): a failure of the success-document write is caught by the
top-level handler, which writes the standard ErrorRecord (no third document
type) and exits 1; only the error-path write is uncaught — if it fails, the
exception escapes `main` and no document is written. -/
theorem C8_write_failure (env : RunEnv) (config : RunConfig) (close : List ℚ)
    (hc : load_config env.configSrc = .ok config)
    (hs : np_random_seed config.seed = .ok ())
    (hd : load_data env.inputSrc = .ok close)
    (hw : env.successWriteOk = false) :
    (env.errorWriteOk = true →
      (mainRun env).outcome = .exited 1
      ∧ writtenDocs (mainRun env) =
          [.failure ⟨config.version, "error", env.writeErrMsg⟩])
    ∧ (env.errorWriteOk = false →
      (mainRun env).outcome = .crashed ∧ writtenDocs (mainRun env) = []) := by
  constructor
  · intro hew
    constructor
    · simp [mainRun, hc, hs, hd, hw, failPath, hew]
    · simp [mainRun, hc, hs, hd, hw, failPath, hew, writtenDocs]
  · intro hew
    constructor
    · simp [mainRun, hc, hs, hd, hw, failPath, hew]
    · simp [mainRun, hc, hs, hd, hw, failPath, hew, writtenDocs]

/-- C8 witness: healthy files, failing success-path write, working error-path
write. -/
theorem C8_write_failure_witness :
    (load_config envWriteFail.configSrc = .ok ⟨42, 3, "v1"⟩
      ∧ np_random_seed (42 : ℤ) = .ok ()
      ∧ load_data envWriteFail.inputSrc = .ok [1, 2, 3, 4, 5]
      ∧ envWriteFail.successWriteOk = false)
    ∧ ((envWriteFail.errorWriteOk = true →
        (mainRun envWriteFail).outcome = .exited 1
        ∧ writtenDocs (mainRun envWriteFail) =
            [.failure ⟨(⟨42, 3, "v1"⟩ : RunConfig).version, "error",
              envWriteFail.writeErrMsg⟩])
      ∧ (envWriteFail.errorWriteOk = false →
        (mainRun envWriteFail).outcome = .crashed
        ∧ writtenDocs (mainRun envWriteFail) = [])) :=
  ⟨⟨rfl, rfl, rfl, rfl⟩,
    C8_write_failure envWriteFail ⟨42, 3, "v1"⟩ [1, 2, 3, 4, 5] rfl rfl rfl rfl⟩

/-- C8 counterexample: with healthy config and data but a failing
success-document write, the run does NOT end in a process-level fatal error:
the exception is caught, an ErrorRecord is written to the output path, and the
process exits 1 — refuting "not caught and converted into another output
document" at this concrete input. -/
theorem C8_counterexample :
    (mainRun envWriteFail).outcome = .exited 1
    ∧ writtenDocs (mainRun envWriteFail) =
        [.failure ⟨"v1", "error", "disk full"⟩] := by
  exact ⟨by decide, by decide⟩
